import Mathlib

/-!
Shallow embedding of the exclusive-playback coordinator of
`lib/tts-manager.sh` (claude-auto-speak).

The shell functions are modelled as pure Lean functions:

* the lock file `voice.lock` becomes `Option LockRecord`, where a
  `LockRecord` keeps the results of `grep '^PID=' | cut -d= -f2` and
  `grep '^SESSION=' | cut -d= -f2` (`none` when the line is absent;
  `some ""` when the line has an empty value — bash treats both as the
  empty string via the `-n` tests);
* the per-session pid files `tts-<safeId>.pid` become a map
  `String → Option String` from sanitized session id to file content;
* process liveness (`kill -0`) becomes an environment function
  `alive : String → Bool`, and liveness `n` 50 ms poll ticks after a
  SIGTERM was delivered becomes `aliveAfterTerm : String → Nat → Bool`;
* externally visible actions (signals sent, lock/pid-file writes, engine
  spawns) are collected in a `List Effect` trace;
* the lock file as seen by the polling loop of `wait_for_voice_lock` is
  an oracle `locks : Nat → Option LockRecord` giving its content at each
  300 ms iteration (other sessions may rewrite it between polls).
-/

/-- Effects (externally visible actions) performed by the coordinator. -/
inductive Effect where
  | sigterm (pid : String)
  | sigkill (pid : String)
  | killAllGlobal
  | removeLock
  | writeLock (pid session : String)
  | spawnEngine (text : String)
  | writePidFile (session pid : String)
deriving DecidableEq

/-- Parsed view of the `voice.lock` file: the value of the first `PID=`
line and of the first `SESSION=` line, `none` when no such line exists
(or the file is unreadable, in which case `grep` yields nothing). -/
structure LockRecord where
  pidField : Option String
  sessionField : Option String
deriving DecidableEq

/-- Process environment: `alive p` is the result of `kill -0 p` (false
for a dead pid and for a malformed pid string), and `aliveAfterTerm p n`
is the result of `kill -0 p` after `n` 50 ms sleeps following the
SIGTERM sent by `cancel_existing_tts`. -/
structure Env where
  alive : String → Bool
  aliveAfterTerm : String → Nat → Bool

/-- Character class kept by `tr -cd 'a-zA-Z0-9_-'`. -/
def isSafeChar (c : Char) : Bool :=
  c.isAlpha || c.isDigit || c == '_' || c == '-'

/-- Model of `tr -cd 'a-zA-Z0-9_-'` applied to the raw session id
(line 25): delete every character outside the safe class. -/
def sanitize_session_id (raw : String) : String :=
  String.mk (raw.data.filter isSafeChar)

/-- Model of bash `${x:-d}`: the default is used when the variable is
unset (`none`) or empty (`some ""`). -/
def orDefault (v : Option String) (d : String) : String :=
  match v with
  | none => d
  | some s => if s = "" then d else s

/-- Model of line 23: `TTS_SESSION_ID="${TERM_SESSION_ID:-${WINDOWID:-session-${PPID:-$$}}}"`
(the `PPID`/`$$` alternative is collapsed into one `ppid` argument,
both are always non-empty decimal strings). -/
def tts_session_id (term window : Option String) (ppid : String) : String :=
  orDefault term (orDefault window ("session-" ++ ppid))

/-- Model of line 25: the sanitized session id `TTS_SESSION_ID_SAFE`. -/
def tts_session_id_safe (term window : Option String) (ppid : String) : String :=
  sanitize_session_id (tts_session_id term window ppid)

/-- Result of `check_voice_lock`: exit status (`free = true` means exit 0,
"we can proceed"), the lock file afterwards, and the visible effects. -/
structure CheckResult where
  free : Bool
  lock : Option LockRecord
  effs : List Effect
deriving DecidableEq

/-- Model of `check_voice_lock` (lines 43–66).  Reads the lock file; a
missing file is free; a record whose pid value is non-empty and not
alive is stale: the file is deleted and the lock is free; a record whose
session value is non-empty and equal to ours is ours; anything else is
held by another session. -/
def check_voice_lock (sid : String) (env : Env) (lock : Option LockRecord) :
    CheckResult :=
  match lock with
  | none => ⟨true, none, []⟩
  | some lr =>
    let lock_pid := lr.pidField.getD ""
    let lock_session := lr.sessionField.getD ""
    if lock_pid ≠ "" ∧ env.alive lock_pid = false then
      ⟨true, none, [Effect.removeLock]⟩
    else if lock_session ≠ "" ∧ lock_session = sid then
      ⟨true, some lr, []⟩
    else
      ⟨false, some lr, []⟩

/-- Model of `release_voice_lock` (lines 112–121): delete the lock file
only when its `SESSION=` value equals our sanitized session id. -/
def release_voice_lock (sid : String) (lock : Option LockRecord) :
    Option LockRecord :=
  match lock with
  | none => none
  | some lr =>
    if lr.sessionField.getD "" = sid then none else some lr

/-- Polling loop body of `wait_for_voice_lock` (lines 78–94): `i` is the
number of 300 ms sleeps performed so far, `fuel` the remaining
iterations (`max_iterations - i`).  Returns the exit status and the
number of sleeps performed when the loop ended. -/
def waitGo (sid : String) (env : Env) (locks : Nat → Option LockRecord) :
    Nat → Nat → Bool × Nat
  | i, 0 => (false, i)
  | i, fuel + 1 =>
    if (check_voice_lock sid env (locks i)).free then (true, i)
    else waitGo sid env locks (i + 1) fuel

/-- Model of `wait_for_voice_lock` (lines 70–98):
`max_iterations = (timeout_seconds * 1000) / 300` with truncating
integer division, then poll `check_voice_lock` once per iteration with a
300 ms sleep between failed polls. -/
def wait_for_voice_lock (sid : String) (env : Env)
    (locks : Nat → Option LockRecord) (timeout_seconds : Nat) : Bool × Nat :=
  waitGo sid env locks 0 ((timeout_seconds * 1000) / 300)

/-- Grace-period loop of `cancel_existing_tts` (lines 135–139):
`while kill -0 "$pid" && [[ $waited -lt 10 ]]; do sleep 0.05; waited++`.
`w` is `waited`, `remaining` is `10 - waited`.  Returns the final value
of `waited` (the number of 50 ms sleeps). -/
def graceLoop (aliveAt : Nat → Bool) : Nat → Nat → Nat
  | w, 0 => w
  | w, remaining + 1 =>
    if aliveAt w then graceLoop aliveAt (w + 1) remaining else w

/-- Model of `cancel_existing_tts` (lines 124–158): if our session's pid
file exists with a non-empty content naming a live process, send SIGTERM,
wait up to 10 × 50 ms for it to die, SIGKILL it if still alive, and
remove the pid file; otherwise just remove the pid file (if present).
It never touches any other session's pid file and never performs the
global kill of `cancel_all_tts`. -/
def cancel_existing_tts (sid : String) (env : Env)
    (pidFiles : String → Option String) :
    (String → Option String) × List Effect :=
  match pidFiles sid with
  | none => (pidFiles, [])
  | some content =>
    let pidFiles' := fun k => if k = sid then none else pidFiles k
    if content = "" then (pidFiles', [])
    else if env.alive content then
      let w := graceLoop (env.aliveAfterTerm content) 0 10
      (pidFiles',
        Effect.sigterm content ::
          (if env.aliveAfterTerm content w then [Effect.sigkill content] else []))
    else (pidFiles', [])

/-- Model of `cancel_all_tts` (lines 161–189): the manual global cleanup
that kills every speak/say/piper process regardless of session, collapsed
into the single `killAllGlobal` effect. -/
def cancel_all_tts : List Effect :=
  [Effect.killAllGlobal]

/-- Result of `speak_exclusive`: `started` (exit 0, TTS spawned),
`skippedEmpty` (exit 0, empty text), `skippedTimeout` (exit 1, gave up
waiting for the lock). -/
inductive SpeakResult where
  | started
  | skippedEmpty
  | skippedTimeout
deriving DecidableEq

/-- Command substitution `$(cat)` strips trailing newlines from the
stdin text (line 204). -/
def stripTrailingNewlines (s : String) : String :=
  String.mk ((s.data.reverse.dropWhile (fun c => c == '\n')).reverse)

/-- Text that `speak_exclusive` ends up with (lines 200–205): the first
argument, or stdin (with trailing newlines stripped) when the argument
is empty. -/
def effectiveText (arg stdinText : String) : String :=
  if arg = "" then stripTrailingNewlines stdinText else arg

/-- Tail of `speak_exclusive` after the lock became available
(lines 224–243): `acquire_voice_lock` (overwrite the lock file with our
pid and session), `cancel_existing_tts`, spawn the engine (either
`bin/speak` or the `say` fallback, both modelled by `spawnEngine`), and
record the new pid in our session's pid file. -/
def speak_body (sid selfPid freshPid : String) (env : Env)
    (pidFiles : String → Option String) (text : String)
    (acc : List Effect) : SpeakResult × List Effect :=
  let c := cancel_existing_tts sid env pidFiles
  (SpeakResult.started,
    acc ++ [Effect.writeLock selfPid sid] ++ c.2 ++
      [Effect.spawnEngine text, Effect.writePidFile sid freshPid])

/-- Model of `speak_exclusive` (lines 199–246).  `selfPid` is `$$`,
`freshPid` the pid of the spawned background job, `locks i` the lock
file at poll iteration `i` (iteration 0 is also the initial
`check_voice_lock`), `pidFiles` the per-session pid files. -/
def speak_exclusive (sid selfPid freshPid : String) (env : Env)
    (locks : Nat → Option LockRecord)
    (pidFiles : String → Option String)
    (arg stdinText : String) : SpeakResult × List Effect :=
  let text := effectiveText arg stdinText
  if text = "" then (SpeakResult.skippedEmpty, [])
  else
    let c0 := check_voice_lock sid env (locks 0)
    if c0.free then
      speak_body sid selfPid freshPid env pidFiles text c0.effs
    else
      let w := wait_for_voice_lock sid env locks 15
      if w.1 then
        let cn := check_voice_lock sid env (locks w.2)
        speak_body sid selfPid freshPid env pidFiles text cn.effs
      else
        (SpeakResult.skippedTimeout, [])

/-! ## Concrete environments used by witnesses and counterexamples -/

/-- Environment in which exactly the pid string "9" is alive and every
process dies immediately after SIGTERM. -/
def envLive9 : Env :=
  ⟨fun p => p == "9", fun _ _ => false⟩

/-- Environment in which exactly the pid string "42" is alive and dies
three 50 ms ticks after receiving SIGTERM. -/
def envDies3 : Env :=
  ⟨fun p => p == "42", fun p n => p == "42" && decide (n < 3)⟩

/-- Lock-file oracle: the lock file never exists (lock always free). -/
def locksFree : Nat → Option LockRecord :=
  fun _ => none

/-- Lock-file oracle: the lock is permanently held by live pid "9" of
session "s2". -/
def locksHeld : Nat → Option LockRecord :=
  fun _ => some ⟨some "9", some "s2"⟩

/-- Pid files: no session has a tracked process. -/
def pfEmpty : String → Option String :=
  fun _ => none

/-- Pid files: session "s1" tracks pid "42", nobody else tracks
anything. -/
def pf42 : String → Option String :=
  fun k => if k = "s1" then some "42" else none

/-- Pid files: session "s1" tracks pid "5", session "s2" tracks pid "7",
nobody else tracks anything. -/
def pf12 : String → Option String :=
  fun k => if k = "s1" then some "5" else if k = "s2" then some "7" else none

/-! ## Claims -/

/-- C1: for every session `sid`, `check_voice_lock` succeeds (lock free)
when no lock record exists; when the record's holder pid is not alive it
deletes the record and succeeds, regardless of which session checks;
when the holder is alive and the holder session equals `sid` it succeeds
without touching the record; and it fails when the holder is a live
process of a different session. -/
theorem check_voice_lock_spec (sid p hs : String) (env : Env)
    (hp : p ≠ "") (hhs : hs ≠ "") :
    check_voice_lock sid env none = ⟨true, none, []⟩
    ∧ (env.alive p = false →
        check_voice_lock sid env (some ⟨some p, some hs⟩) =
          ⟨true, none, [Effect.removeLock]⟩)
    ∧ (env.alive p = true → hs = sid →
        check_voice_lock sid env (some ⟨some p, some hs⟩) =
          ⟨true, some ⟨some p, some hs⟩, []⟩)
    ∧ (env.alive p = true → hs ≠ sid →
        check_voice_lock sid env (some ⟨some p, some hs⟩) =
          ⟨false, some ⟨some p, some hs⟩, []⟩) := by
  refine ⟨rfl, ?_, ?_, ?_⟩
  · intro ha
    simp [check_voice_lock, hp, ha]
  · intro ha h
    subst h
    simp [check_voice_lock, ha, hhs]
  · intro ha h
    simp [check_voice_lock, ha, h]

/-- Witness for C1: a live holder "9" of session "s2" blocks session
"s1". -/
theorem check_voice_lock_spec_witness :
    check_voice_lock "s1" envLive9 (some ⟨some "9", some "s2"⟩) =
      ⟨false, some ⟨some "9", some "s2"⟩, []⟩ :=
  (check_voice_lock_spec "s1" "9" "s2" envLive9 (by decide) (by decide)).2.2.2
    (by decide) (by decide)

/-- C3: `release_voice_lock` deletes the lock record exactly when the
recorded holder session equals the caller's sanitized session id; a
missing record or a different holder session leaves everything
unchanged, and release is idempotent. -/
theorem release_voice_lock_spec (sid : String) (lock : Option LockRecord) :
    release_voice_lock sid none = none
    ∧ (∀ lr : LockRecord, lr.sessionField.getD "" = sid →
        release_voice_lock sid (some lr) = none)
    ∧ (∀ lr : LockRecord, lr.sessionField.getD "" ≠ sid →
        release_voice_lock sid (some lr) = some lr)
    ∧ release_voice_lock sid (release_voice_lock sid lock) =
        release_voice_lock sid lock := by
  refine ⟨rfl, ?_, ?_, ?_⟩
  · intro lr h
    simp [release_voice_lock, h]
  · intro lr h
    simp [release_voice_lock, h]
  · cases lock with
    | none => rfl
    | some lr =>
      by_cases h : lr.sessionField.getD "" = sid
      · simp [release_voice_lock, h]
      · simp [release_voice_lock, h]

/-- Witness for C3: session "s1" releasing a lock held by "s2" is a
no-op. -/
theorem release_voice_lock_spec_witness :
    release_voice_lock "s1" (some ⟨some "9", some "s2"⟩) =
      some ⟨some "9", some "s2"⟩ :=
  (release_voice_lock_spec "s1" none).2.2.1 ⟨some "9", some "s2"⟩ (by decide)

/-- Counterexample to C5: a lock record with no parseable `PID=` and no
parseable `SESSION=` line is NOT treated as free — `check_voice_lock`
returns failure (held by another session) and keeps the record. -/
theorem check_voice_lock_corrupt_counterexample :
    (check_voice_lock "s1" envLive9 (some ⟨none, none⟩)).free = false := by
  decide

/-- C5 (amended): a lock record that yields no parseable `PID=` or
`SESSION=` line is treated as held by another session: `check_voice_lock`
returns false (fail-closed), leaves the record in place, and performs no
effect. -/
theorem check_voice_lock_corrupt_fail_closed (sid : String) (env : Env) :
    check_voice_lock sid env (some ⟨none, none⟩) =
      ⟨false, some ⟨none, none⟩, []⟩ := by
  simp [check_voice_lock]

/-- Counterexample to C6: a raw session id with no safe characters
sanitizes to the empty string — there is no `pid-` fallback, so the
sanitized id is not always non-empty. -/
theorem tts_session_id_safe_counterexample :
    tts_session_id_safe (some "!!!") none "123" = "" := by
  decide

/-- C6 (amended): the sanitized session id keeps exactly the characters
in `[A-Za-z0-9_-]`; it is empty precisely when the raw id contains no
such character (no fallback exists), and the default raw id
`session-<ppid>` always sanitizes to a non-empty id. -/
theorem tts_session_id_safe_spec (term window : Option String) (ppid : String) :
    (∀ c ∈ (tts_session_id_safe term window ppid).data, isSafeChar c = true)
    ∧ ((tts_session_id_safe term window ppid) = "" ↔
        ∀ c ∈ (tts_session_id term window ppid).data, isSafeChar c = false)
    ∧ tts_session_id_safe none none ppid ≠ "" := by
  refine ⟨?_, ?_, ?_⟩
  · intro c hc
    simp [tts_session_id_safe, sanitize_session_id, List.mem_filter] at hc
    exact hc.2
  · constructor
    · intro h c hc
      have h2 : (tts_session_id_safe term window ppid).data = [] := by
        rw [h]
      simp [tts_session_id_safe, sanitize_session_id,
        List.filter_eq_nil_iff] at h2
      simpa using h2 c hc
    · intro h
      apply String.ext
      simp [tts_session_id_safe, sanitize_session_id, List.filter_eq_nil_iff]
      intro c hc
      simpa using h c hc
  · intro h
    have h2 : (tts_session_id_safe none none ppid).data = [] := by
      rw [h]
    have h3 : tts_session_id none none ppid = "session-" ++ ppid := rfl
    simp [tts_session_id_safe, sanitize_session_id, h3,
      String.data_append, List.filter_append, List.append_eq_nil] at h2
    exact absurd h2.1 (by decide)

/-- Witness for C6 (amended): 's' is a safe character kept by
sanitization, and the default raw id with ppid "7" sanitizes to a
non-empty id. -/
theorem tts_session_id_safe_spec_witness :
    isSafeChar 's' = true ∧ tts_session_id_safe none none "7" ≠ "" :=
  ⟨(tts_session_id_safe_spec none none "7").1 's' (by decide),
   (tts_session_id_safe_spec none none "7").2.2⟩

/-- Helper: full characterization of the polling loop `waitGo`.  Starting
at iteration `i` with `fuel` iterations left, the loop stops at an
iteration between `i` and `i + fuel`; every earlier iteration saw the
lock busy; on success the final iteration saw it free and consumed less
than the full fuel; on failure the full fuel was consumed. -/
theorem waitGo_characterization (sid : String) (env : Env)
    (locks : Nat → Option LockRecord) :
    ∀ (fuel i : Nat),
      i ≤ (waitGo sid env locks i fuel).2
      ∧ (waitGo sid env locks i fuel).2 ≤ i + fuel
      ∧ (∀ j, i ≤ j → j < (waitGo sid env locks i fuel).2 →
          (check_voice_lock sid env (locks j)).free = false)
      ∧ ((waitGo sid env locks i fuel).1 = true →
          (check_voice_lock sid env (locks (waitGo sid env locks i fuel).2)).free
            = true
          ∧ (waitGo sid env locks i fuel).2 < i + fuel)
      ∧ ((waitGo sid env locks i fuel).1 = false →
          (waitGo sid env locks i fuel).2 = i + fuel) := by
  intro fuel
  induction fuel with
  | zero =>
    intro i
    refine ⟨le_refl i, le_refl i, ?_, ?_, fun _ => rfl⟩
    · intro j hij hji
      exact absurd (lt_of_le_of_lt hij hji) (lt_irrefl i)
    · intro h
      exact absurd h (by simp [waitGo])
  | succ n ih =>
    intro i
    by_cases h : (check_voice_lock sid env (locks i)).free = true
    · have hw : waitGo sid env locks i (n + 1) = (true, i) := by
        simp [waitGo, h]
      rw [hw]
      refine ⟨le_refl i, Nat.le_add_right i (n + 1), ?_, ?_, ?_⟩
      · intro j hij hji
        exact absurd (lt_of_le_of_lt hij hji) (lt_irrefl i)
      · intro _
        exact ⟨h, by omega⟩
      · intro hfalse
        simp at hfalse
    · have hb : (check_voice_lock sid env (locks i)).free = false := by
        simpa using h
      have hw : waitGo sid env locks i (n + 1) = waitGo sid env locks (i + 1) n := by
        simp [waitGo, hb]
      rw [hw]
      obtain ⟨h1, h2, h3, h4, h5⟩ := ih (i + 1)
      refine ⟨by omega, by omega, ?_, ?_, ?_⟩
      · intro j hij hji
        rcases Nat.eq_or_lt_of_le hij with heq | hlt
        · rw [← heq]
          exact hb
        · exact h3 j hlt hji
      · intro ht
        obtain ⟨hc, hlt⟩ := h4 ht
        exact ⟨hc, by omega⟩
      · intro hf
        have := h5 hf
        omega

/-- C4: `wait_for_voice_lock sid T` performs at most `(T*1000)/300` poll
iterations of 300 ms each: the number of sleeps is at most that bound
(so failure is reported no later than `T` seconds after the call), every
iteration before the final one saw the lock busy, success means the final
poll saw the lock free before the fuel ran out, and failure means
exactly `(T*1000)/300` iterations were used — the loop never runs
unboundedly. -/
theorem wait_for_voice_lock_bound (sid : String) (env : Env)
    (locks : Nat → Option LockRecord) (T : Nat) :
    (wait_for_voice_lock sid env locks T).2 ≤ (T * 1000) / 300
    ∧ (wait_for_voice_lock sid env locks T).2 * 300 ≤ T * 1000
    ∧ (∀ j, j < (wait_for_voice_lock sid env locks T).2 →
        (check_voice_lock sid env (locks j)).free = false)
    ∧ ((wait_for_voice_lock sid env locks T).1 = true →
        (check_voice_lock sid env
            (locks (wait_for_voice_lock sid env locks T).2)).free = true
        ∧ (wait_for_voice_lock sid env locks T).2 < (T * 1000) / 300)
    ∧ ((wait_for_voice_lock sid env locks T).1 = false →
        (wait_for_voice_lock sid env locks T).2 = (T * 1000) / 300) := by
  obtain ⟨h1, h2, h3, h4, h5⟩ :=
    waitGo_characterization sid env locks ((T * 1000) / 300) 0
  have hm : (T * 1000) / 300 * 300 ≤ T * 1000 := Nat.div_mul_le_self _ _
  refine ⟨?_, ?_, ?_, ?_, ?_⟩
  · simpa [wait_for_voice_lock] using h2
  · have : (wait_for_voice_lock sid env locks T).2 ≤ (T * 1000) / 300 := by
      simpa [wait_for_voice_lock] using h2
    calc (wait_for_voice_lock sid env locks T).2 * 300
        ≤ (T * 1000) / 300 * 300 := Nat.mul_le_mul_right 300 this
      _ ≤ T * 1000 := hm
  · intro j hj
    exact h3 j (Nat.zero_le j) hj
  · intro ht
    have := h4 ht
    simpa [wait_for_voice_lock] using this
  · intro hf
    have := h5 hf
    simpa [wait_for_voice_lock] using this

/-- Witness for C4: with the lock always free and a 1-second timeout the
wait succeeds, having found the lock free at its final iteration within
the bound of 3 iterations. -/
theorem wait_for_voice_lock_bound_witness :
    (check_voice_lock "s1" envLive9
        (locksFree (wait_for_voice_lock "s1" envLive9 locksFree 1).2)).free = true
    ∧ (wait_for_voice_lock "s1" envLive9 locksFree 1).2 < (1 * 1000) / 300 :=
  (wait_for_voice_lock_bound "s1" envLive9 locksFree 1).2.2.2.1 (by decide)

/-- C10: when the timeout argument is below one 300 ms poll interval the
iteration bound `(T*1000)/300` truncates to 0 and `wait_for_voice_lock`
reports timeout immediately after zero iterations — for every lock-file
oracle, so in particular even when the lock is actually free. -/
theorem wait_for_voice_lock_zero_timeout (sid : String) (env : Env)
    (locks : Nat → Option LockRecord) (T : Nat) (hT : T * 1000 < 300) :
    (T * 1000) / 300 = 0
    ∧ wait_for_voice_lock sid env locks T = (false, 0) := by
  have hm : (T * 1000) / 300 = 0 := Nat.div_eq_of_lt hT
  refine ⟨hm, ?_⟩
  simp [wait_for_voice_lock, hm, waitGo]

/-- Witness for C10: timeout 0 with a free lock still reports failure
after zero iterations. -/
theorem wait_for_voice_lock_zero_timeout_witness :
    (0 * 1000) / 300 = 0
    ∧ wait_for_voice_lock "s1" envLive9 locksFree 0 = (false, 0) :=
  wait_for_voice_lock_zero_timeout "s1" envLive9 locksFree 0 (by decide)

/-- Helper: the grace loop performs at most `remaining` additional 50 ms
sleeps. -/
theorem graceLoop_le (aliveAt : Nat → Bool) :
    ∀ (remaining w : Nat), graceLoop aliveAt w remaining ≤ w + remaining := by
  intro remaining
  induction remaining with
  | zero =>
    intro w
    simp [graceLoop]
  | succ n ih =>
    intro w
    by_cases h : aliveAt w = true
    · have : graceLoop aliveAt w (n + 1) = graceLoop aliveAt (w + 1) n := by
        simp [graceLoop, h]
      rw [this]
      have := ih (w + 1)
      omega
    · have hb : aliveAt w = false := by simpa using h
      have : graceLoop aliveAt w (n + 1) = w := by
        simp [graceLoop, hb]
      omega

/-- Helper: the grace loop exits either because it exhausted its budget
or because the process was observed dead at the final tick. -/
theorem graceLoop_exit (aliveAt : Nat → Bool) :
    ∀ (remaining w : Nat),
      graceLoop aliveAt w remaining = w + remaining
      ∨ aliveAt (graceLoop aliveAt w remaining) = false := by
  intro remaining
  induction remaining with
  | zero =>
    intro w
    left
    simp [graceLoop]
  | succ n ih =>
    intro w
    by_cases h : aliveAt w = true
    · have heq : graceLoop aliveAt w (n + 1) = graceLoop aliveAt (w + 1) n := by
        simp [graceLoop, h]
      rw [heq]
      rcases ih (w + 1) with h1 | h1
      · left
        omega
      · right
        exact h1
    · have hb : aliveAt w = false := by simpa using h
      have heq : graceLoop aliveAt w (n + 1) = w := by
        simp [graceLoop, hb]
      right
      rw [heq]
      exact hb

/-- C9: `cancel_existing_tts` sends SIGTERM only to the pid recorded in
the calling session's own pid file and only when that pid is alive; it
sends SIGKILL only after having sent SIGTERM and only when the process
was still alive after the full grace period of 10 polls × 50 ms
(500 ms); the grace loop never polls more than 10 times; and a missing
pid file, an empty pid file, or a dead pid yields no signal at all (a
no-op, never an error). -/
theorem cancel_existing_tts_grace (sid : String) (env : Env)
    (pidFiles : String → Option String) :
    (∀ p, Effect.sigterm p ∈ (cancel_existing_tts sid env pidFiles).2 →
        pidFiles sid = some p ∧ env.alive p = true)
    ∧ (∀ p, Effect.sigkill p ∈ (cancel_existing_tts sid env pidFiles).2 →
        Effect.sigterm p ∈ (cancel_existing_tts sid env pidFiles).2
        ∧ env.aliveAfterTerm p 10 = true)
    ∧ (pidFiles sid = none → (cancel_existing_tts sid env pidFiles).2 = [])
    ∧ (pidFiles sid = some "" → (cancel_existing_tts sid env pidFiles).2 = [])
    ∧ (∀ p, pidFiles sid = some p → env.alive p = false →
        (cancel_existing_tts sid env pidFiles).2 = [])
    ∧ (∀ p, graceLoop (env.aliveAfterTerm p) 0 10 ≤ 10) := by
  refine ⟨?_, ?_, ?_, ?_, ?_, ?_⟩
  · intro p hp
    rcases hfile : pidFiles sid with _ | content
    · simp [cancel_existing_tts, hfile] at hp
    · by_cases hc : content = ""
      · subst hc
        simp [cancel_existing_tts, hfile] at hp
      · by_cases ha : env.alive content = true
        · simp [cancel_existing_tts, hfile, hc, ha] at hp
          subst hp
          exact ⟨rfl, ha⟩
        · have hb : env.alive content = false := by simpa using ha
          simp [cancel_existing_tts, hfile, hc, hb] at hp
  · intro p hp
    rcases hfile : pidFiles sid with _ | content
    · simp [cancel_existing_tts, hfile] at hp
    · by_cases hc : content = ""
      · subst hc
        simp [cancel_existing_tts, hfile] at hp
      · by_cases ha : env.alive content = true
        · by_cases hk :
            env.aliveAfterTerm content
              (graceLoop (env.aliveAfterTerm content) 0 10) = true
          · have hpc : p = content := by
              simp [cancel_existing_tts, hfile, hc, ha, hk] at hp
              exact hp
            subst hpc
            constructor
            · simp [cancel_existing_tts, hfile, hc, ha]
            · rcases graceLoop_exit (env.aliveAfterTerm p) 10 0 with hx | hx
              · rw [hx] at hk
                simpa using hk
              · rw [hx] at hk
                simp at hk
          · have hkb :
              env.aliveAfterTerm content
                (graceLoop (env.aliveAfterTerm content) 0 10) = false := by
              simpa using hk
            simp [cancel_existing_tts, hfile, hc, ha, hkb] at hp
        · have hb : env.alive content = false := by simpa using ha
          simp [cancel_existing_tts, hfile, hc, hb] at hp
  · intro hfile
    simp [cancel_existing_tts, hfile]
  · intro hfile
    simp [cancel_existing_tts, hfile]
  · intro p hfile hdead
    simp [cancel_existing_tts, hfile, hdead]
  · intro p
    have := graceLoop_le (env.aliveAfterTerm p) 10 0
    omega

/-- Witness for C9: session "s1" tracks live pid "42", which dies 3 ticks
after SIGTERM, so the SIGTERM really targeted the tracked live pid. -/
theorem cancel_existing_tts_grace_witness :
    pf42 "s1" = some "42" ∧ envDies3.alive "42" = true :=
  (cancel_existing_tts_grace "s1" envDies3 pf42).1 "42" (by decide)

/-- Helper: the only effect `check_voice_lock` ever performs is deleting
a stale lock record. -/
theorem check_voice_lock_effs_sub (sid : String) (env : Env)
    (lock : Option LockRecord) :
    ∀ e ∈ (check_voice_lock sid env lock).effs, e = Effect.removeLock := by
  intro e he
  cases lock with
  | none => simp [check_voice_lock] at he
  | some lr =>
    simp only [check_voice_lock] at he
    split at he
    · simpa using he
    · split at he
      · simp at he
      · simp at he

/-- Helper: every signal effect of `cancel_existing_tts` targets the pid
recorded in the calling session's own pid file. -/
theorem cancel_existing_tts_effs_shape (sid : String) (env : Env)
    (pidFiles : String → Option String) :
    ∀ e ∈ (cancel_existing_tts sid env pidFiles).2,
      ∃ p, pidFiles sid = some p
        ∧ (e = Effect.sigterm p ∨ e = Effect.sigkill p) := by
  intro e he
  rcases hfile : pidFiles sid with _ | content
  · simp [cancel_existing_tts, hfile] at he
  · by_cases hc : content = ""
    · subst hc
      simp [cancel_existing_tts, hfile] at he
    · by_cases ha : env.alive content = true
      · refine ⟨content, rfl, ?_⟩
        by_cases hk :
          env.aliveAfterTerm content
            (graceLoop (env.aliveAfterTerm content) 0 10) = true
        · simp [cancel_existing_tts, hfile, hc, ha, hk] at he
          tauto
        · have hkb :
            env.aliveAfterTerm content
              (graceLoop (env.aliveAfterTerm content) 0 10) = false := by
            simpa using hk
          simp [cancel_existing_tts, hfile, hc, ha, hkb] at he
          tauto
      · have hb : env.alive content = false := by simpa using ha
        simp [cancel_existing_tts, hfile, hc, hb] at he

/-- Helper: shape of the effect trace of the post-acquire tail of
`speak_exclusive`. -/
theorem speak_body_effs (sid selfPid freshPid : String) (env : Env)
    (pidFiles : String → Option String) (text : String) (acc : List Effect)
    (hacc : ∀ e ∈ acc, e = Effect.removeLock) :
    ∀ e ∈ (speak_body sid selfPid freshPid env pidFiles text acc).2,
      e = Effect.removeLock
      ∨ e = Effect.writeLock selfPid sid
      ∨ e = Effect.spawnEngine text
      ∨ e = Effect.writePidFile sid freshPid
      ∨ ∃ p, pidFiles sid = some p
          ∧ (e = Effect.sigterm p ∨ e = Effect.sigkill p) := by
  intro e he
  simp only [speak_body, List.mem_append, List.mem_cons,
    List.not_mem_nil, or_false] at he
  rcases he with ((he | he) | he) | he | he
  · exact Or.inl (hacc e he)
  · exact Or.inr (Or.inl he)
  · exact Or.inr (Or.inr (Or.inr (Or.inr
      (cancel_existing_tts_effs_shape sid env pidFiles e he))))
  · exact Or.inr (Or.inr (Or.inl he))
  · exact Or.inr (Or.inr (Or.inr (Or.inl he)))

/-- Helper: shape of the full effect trace of `speak_exclusive`: it may
delete a stale lock, write its own lock record, signal the pid recorded
in its own session's pid file, spawn the engine, and record the new pid
— nothing else, in particular no global kill. -/
theorem speak_exclusive_effs_shape (sid selfPid freshPid : String) (env : Env)
    (locks : Nat → Option LockRecord) (pidFiles : String → Option String)
    (arg stdinText : String) :
    ∀ e ∈ (speak_exclusive sid selfPid freshPid env locks pidFiles arg stdinText).2,
      e = Effect.removeLock
      ∨ e = Effect.writeLock selfPid sid
      ∨ e = Effect.spawnEngine (effectiveText arg stdinText)
      ∨ e = Effect.writePidFile sid freshPid
      ∨ ∃ p, pidFiles sid = some p
          ∧ (e = Effect.sigterm p ∨ e = Effect.sigkill p) := by
  intro e he
  by_cases ht : effectiveText arg stdinText = ""
  · simp [speak_exclusive, ht] at he
  · by_cases hc : (check_voice_lock sid env (locks 0)).free = true
    · have heq :
        speak_exclusive sid selfPid freshPid env locks pidFiles arg stdinText =
          speak_body sid selfPid freshPid env pidFiles
            (effectiveText arg stdinText)
            (check_voice_lock sid env (locks 0)).effs := by
        simp [speak_exclusive, ht, hc]
      rw [heq] at he
      exact speak_body_effs sid selfPid freshPid env pidFiles _ _
        (check_voice_lock_effs_sub sid env (locks 0)) e he
    · have hcb : (check_voice_lock sid env (locks 0)).free = false := by
        simpa using hc
      by_cases hw : (wait_for_voice_lock sid env locks 15).1 = true
      · have heq :
          speak_exclusive sid selfPid freshPid env locks pidFiles arg stdinText =
            speak_body sid selfPid freshPid env pidFiles
              (effectiveText arg stdinText)
              (check_voice_lock sid env
                (locks (wait_for_voice_lock sid env locks 15).2)).effs := by
          simp [speak_exclusive, ht, hcb, hw]
        rw [heq] at he
        exact speak_body_effs sid selfPid freshPid env pidFiles _ _
          (check_voice_lock_effs_sub sid env _) e he
      · have hwb : (wait_for_voice_lock sid env locks 15).1 = false := by
          simpa using hw
        have heq :
          speak_exclusive sid selfPid freshPid env locks pidFiles arg stdinText =
            (SpeakResult.skippedTimeout, []) := by
          simp [speak_exclusive, ht, hcb, hwb]
        rw [heq] at he
        simp at he

/-- C2: the per-utterance cancellation path of `speak_exclusive` never
performs the global kill of `cancel_all_tts`, and every termination
signal it sends targets the single pid recorded in the calling session's
own session-keyed pid file; hence, when the per-session pid files are
pid-disjoint (one OS process is tracked by at most one session), session
A's call never terminates the process tracked by a session B with a
different sanitized session id. -/
theorem speak_exclusive_session_scoped (sidA sidB selfPid freshPid q : String)
    (env : Env) (locks : Nat → Option LockRecord)
    (pidFiles : String → Option String) (arg stdinText : String)
    (hAB : sidA ≠ sidB)
    (hdisj : ∀ s t : String, s ≠ t → pidFiles s = none ∨ pidFiles s ≠ pidFiles t)
    (hB : pidFiles sidB = some q) :
    (∀ e ∈ cancel_all_tts,
      e ∉ (speak_exclusive sidA selfPid freshPid env locks pidFiles arg stdinText).2)
    ∧ (∀ p,
        Effect.sigterm p ∈
            (speak_exclusive sidA selfPid freshPid env locks pidFiles arg stdinText).2
          ∨ Effect.sigkill p ∈
            (speak_exclusive sidA selfPid freshPid env locks pidFiles arg stdinText).2 →
        pidFiles sidA = some p)
    ∧ Effect.sigterm q ∉
        (speak_exclusive sidA selfPid freshPid env locks pidFiles arg stdinText).2
    ∧ Effect.sigkill q ∉
        (speak_exclusive sidA selfPid freshPid env locks pidFiles arg stdinText).2 := by
  have hA : pidFiles sidA ≠ some q := by
    rcases hdisj sidA sidB hAB with h | h
    · rw [h]
      simp
    · intro hcontra
      exact h (by rw [hcontra, hB])
  have hshape :=
    speak_exclusive_effs_shape sidA selfPid freshPid env locks pidFiles arg stdinText
  have hsig : ∀ p,
      Effect.sigterm p ∈
          (speak_exclusive sidA selfPid freshPid env locks pidFiles arg stdinText).2
        ∨ Effect.sigkill p ∈
          (speak_exclusive sidA selfPid freshPid env locks pidFiles arg stdinText).2 →
      pidFiles sidA = some p := by
    intro p hp
    rcases hp with hp | hp
    · rcases hshape _ hp with h | h | h | h | ⟨p', hp', h⟩
      · simp at h
      · simp at h
      · simp at h
      · simp at h
      · rcases h with h | h
        · simp at h
          rw [h]
          exact hp'
        · simp at h
    · rcases hshape _ hp with h | h | h | h | ⟨p', hp', h⟩
      · simp at h
      · simp at h
      · simp at h
      · simp at h
      · rcases h with h | h
        · simp at h
        · simp at h
          rw [h]
          exact hp'
  refine ⟨?_, hsig, ?_, ?_⟩
  · intro e he hmem
    simp [cancel_all_tts] at he
    subst he
    rcases hshape _ hmem with h | h | h | h | ⟨p', _, h | h⟩ <;> simp at h
  · intro hmem
    exact hA (hsig q (Or.inl hmem))
  · intro hmem
    exact hA (hsig q (Or.inr hmem))

/-- Witness for C2: with session "s1" tracking pid "5" and session "s2"
tracking pid "7", an utterance of "s1" never signals pid "7". -/
theorem speak_exclusive_session_scoped_witness :
    Effect.sigterm "7" ∉
      (speak_exclusive "s1" "9" "77" envLive9 locksFree pf12 "hello" "").2 :=
  (speak_exclusive_session_scoped "s1" "s2" "9" "77" "7" envLive9 locksFree
    pf12 "hello" "" (by decide)
    (by
      intro s t hst
      by_cases h1 : s = "s1"
      · subst h1
        have ht1 : t ≠ "s1" := Ne.symm hst
        right
        by_cases h2 : t = "s2"
        · subst h2
          decide
        · simp [pf12, ht1, h2]
      · by_cases h2 : s = "s2"
        · subst h2
          have ht2 : t ≠ "s2" := Ne.symm hst
          right
          by_cases h3 : t = "s1"
          · subst h3
            decide
          · simp [pf12, h3, ht2]
        · left
          simp [pf12, h1, h2])
    (by decide)).2.2.1

/-- Counterexample to C7: the argument " " is empty after trimming
whitespace, yet `speak_exclusive` does not skip it — it starts speaking
and spawns the engine on the whitespace-only text. -/
theorem speak_exclusive_empty_counterexample :
    (speak_exclusive "s1" "9" "77" envLive9 locksFree pfEmpty " " "").1 =
      SpeakResult.started
    ∧ Effect.spawnEngine " " ∈
        (speak_exclusive "s1" "9" "77" envLive9 locksFree pfEmpty " " "").2 := by
  decide

/-- C7 (amended): `speak_exclusive` skips exactly when its text is the
empty string (the argument is empty and stdin is empty after command
substitution strips trailing newlines): then it returns success with no
effect at all — no lock acquired, no process cancelled, no engine
spawned; when the text is non-empty (even whitespace-only) it never
returns the empty-skip result. -/
theorem speak_exclusive_empty_spec (sid selfPid freshPid : String) (env : Env)
    (locks : Nat → Option LockRecord) (pidFiles : String → Option String)
    (arg stdinText : String) :
    (effectiveText arg stdinText = "" →
      speak_exclusive sid selfPid freshPid env locks pidFiles arg stdinText =
        (SpeakResult.skippedEmpty, []))
    ∧ (effectiveText arg stdinText ≠ "" →
      (speak_exclusive sid selfPid freshPid env locks pidFiles arg stdinText).1 ≠
        SpeakResult.skippedEmpty) := by
  constructor
  · intro h
    simp [speak_exclusive, h]
  · intro h
    by_cases hc : (check_voice_lock sid env (locks 0)).free = true
    · simp [speak_exclusive, h, hc, speak_body]
    · have hcb : (check_voice_lock sid env (locks 0)).free = false := by
        simpa using hc
      by_cases hw : (wait_for_voice_lock sid env locks 15).1 = true
      · simp [speak_exclusive, h, hcb, hw, speak_body]
      · have hwb : (wait_for_voice_lock sid env locks 15).1 = false := by
          simpa using hw
        simp [speak_exclusive, h, hcb, hwb]

/-- Witness for C7 (amended): an empty argument with a newline-only
stdin is skipped with no effects. -/
theorem speak_exclusive_empty_spec_witness :
    speak_exclusive "s1" "9" "77" envLive9 locksFree pfEmpty "" "\n" =
      (SpeakResult.skippedEmpty, []) :=
  (speak_exclusive_empty_spec "s1" "9" "77" envLive9 locksFree pfEmpty "" "\n").1
    (by decide)

/-- C8: when the initial lock check fails and the 15-second wait times
out, `speak_exclusive` returns the timeout skip with an empty effect
trace: it writes no lock record, sends no signal, and leaves the
session's tracked-process file untouched. -/
theorem speak_exclusive_timeout_frame (sid selfPid freshPid : String)
    (env : Env) (locks : Nat → Option LockRecord)
    (pidFiles : String → Option String) (arg stdinText : String)
    (htext : effectiveText arg stdinText ≠ "")
    (h0 : (check_voice_lock sid env (locks 0)).free = false)
    (hw : (wait_for_voice_lock sid env locks 15).1 = false) :
    speak_exclusive sid selfPid freshPid env locks pidFiles arg stdinText =
      (SpeakResult.skippedTimeout, []) := by
  simp [speak_exclusive, htext, h0, hw]

/-- Witness for C8: with the lock permanently held by live pid "9" of
session "s2", session "s1" times out and performs no effect. -/
theorem speak_exclusive_timeout_frame_witness :
    speak_exclusive "s1" "9" "77" envLive9 locksHeld pfEmpty "hello" "" =
      (SpeakResult.skippedTimeout, []) :=
  speak_exclusive_timeout_frame "s1" "9" "77" envLive9 locksHeld pfEmpty
    "hello" "" (by decide) (by decide) (by decide)
